import Mathlib

/-!
Formal model of src/mylayers/distance_self_attention1.py, class
SeqDistanceSelfAttention (a Keras layer).

A framework tensor of shape [batch, sequence, features] is modelled as a
function Fin nb -> Fin ns -> Fin f -> Real, and a score tensor of shape
[batch, sequence, sequence] as Fin nb -> Fin ns -> Fin ns -> Real.
Fallible framework behaviour (a raised python exception: shape mismatch on
broadcast, an unbound local name, NotImplementedError) is modelled with
Option: none means the call raises and produces nothing.

The distance-bias matrix in call is built with numpy over a hard-coded
side length sl = 15 (the line sl = 15 overwrites the symbolic sequence
length), so the later addition e += distance_mask only succeeds when the
runtime sequence length is 15; the model guards the success branch of
callCore with ns = 15 accordingly.  (For ns = 1 the addition itself would
broadcast, but the final batch_dot of the 15 x 15 weights with the
length-1 input then fails, so the call still raises; the single guard is
extensionally faithful.)

keras.activations.get(None) yields the linear (identity) activation, so
self.attention_activation is always a function and is always applied; the
model therefore stores attention_activation as a plain function defaulting
to id.  The attention regularizer (add_loss) has no effect on the returned
tensors and is not modelled.
-/

namespace EDSSM

/-- Tensor of framework shape [nb, ns, f]. -/
abbrev Tensor3 (nb ns f : ℕ) : Type := Fin nb → Fin ns → Fin f → ℝ

/-- Score tensor of framework shape [nb, ns, ns]. -/
abbrev Scores (nb ns : ℕ) : Type := Fin nb → Fin ns → Fin ns → ℝ

/-- Constructor hyperparameters of SeqDistanceSelfAttention that influence the
forward pass (initializers, regularizers and constraints only shape the
framework-owned training of the weights and are not modelled; the weights
themselves are passed to the call explicitly). -/
structure Config where
  units : ℕ := 32
  attention_width : Option ℕ := none
  attention_type : String := "additive"
  return_attention : Bool := false
  history_only : Bool := false
  use_additive_bias : Bool := true
  use_attention_bias : Bool := true
  attention_activation : ℝ → ℝ := id
  attention_distance : String := "linear"

/-- Layer state produced by __init__ (the constructor may rewrite
attention_width when history_only is set). -/
structure Layer where
  cfg : Config
  attention_width : Option ℕ

/-- String constant ATTENTION_TYPE_ADD of the class. -/
def ATTENTION_TYPE_ADD : String := "additive"

/-- String constant ATTENTION_TYPE_MUL of the class. -/
def ATTENTION_TYPE_MUL : String := "multiplicative"

/-- Model of SeqDistanceSelfAttention.__init__: stores the hyperparameters,
replaces attention_width by int(1e9) when history_only is set together with
attention_width None, and raises NotImplementedError (none) for an
attention_type other than additive or multiplicative. -/
def init (cfg : Config) : Option Layer :=
  if cfg.attention_type = ATTENTION_TYPE_ADD ∨ cfg.attention_type = ATTENTION_TYPE_MUL then
    some { cfg := cfg,
           attention_width :=
             if cfg.history_only ∧ cfg.attention_width = none then some 1000000000
             else cfg.attention_width }
  else
    none

/-- Learned weights created by build: either the additive set
(Wt, Wx, bh, Wa, ba) or the multiplicative set (Wa, ba).  The bias slots are
present as data even when the corresponding use flag is off; the emission
functions consult the flags, exactly as the python code only creates and uses
the biases under the flags. -/
inductive Weights (f u : ℕ) where
  | additive (Wt Wx : Fin f → Fin u → ℝ) (bh : Fin u → ℝ) (Wa : Fin u → ℝ) (ba : ℝ) : Weights f u
  | multiplicative (Wa : Fin f → Fin f → ℝ) (ba : ℝ) : Weights f u

variable {nb ns f u : ℕ}

/-- Model of _call_additive_emission: q = dot(inputs, Wt) expanded on axis 2,
k = dot(inputs, Wx) expanded on axis 1, h = tanh(q + k (+ bh)), and
e = reshape(dot(h, Wa) (+ ba)).  Broadcasting of the two expanded axes makes
entry (b, t, t2) combine q at t with k at t2. -/
noncomputable def _call_additive_emission (useAddBias useAttBias : Bool)
    (Wt Wx : Fin f → Fin u → ℝ) (bh : Fin u → ℝ) (Wa : Fin u → ℝ) (ba : ℝ)
    (inputs : Tensor3 nb ns f) : Scores nb ns :=
  fun b t t2 =>
    let q : Fin u → ℝ := fun j => ∑ d, inputs b t d * Wt d j
    let k : Fin u → ℝ := fun j => ∑ d, inputs b t2 d * Wx d j
    let h : Fin u → ℝ :=
      if useAddBias then fun j => Real.tanh (q j + k j + bh j)
      else fun j => Real.tanh (q j + k j)
    if useAttBias then (∑ j, h j * Wa j) + ba
    else ∑ j, h j * Wa j

/-- Model of _call_multiplicative_emission:
e = batch_dot(dot(inputs, Wa), transpose(inputs)) (+ ba[0]). -/
noncomputable def _call_multiplicative_emission (useAttBias : Bool)
    (Wa : Fin f → Fin f → ℝ) (ba : ℝ) (inputs : Tensor3 nb ns f) : Scores nb ns :=
  fun b t t2 =>
    let e : ℝ := ∑ d, (∑ d2, inputs b t d2 * Wa d2 d) * inputs b t2 d
    if useAttBias then e + ba else e

/-- Emission dispatch of call (lines 233 to 236): the additive formula when
attention_type is additive, the multiplicative one when multiplicative; a
weight set that does not match the attention type means the stored weight
slots are still None and the python evaluation raises (none). -/
noncomputable def emission (cfg : Config) (w : Weights f u) (inputs : Tensor3 nb ns f) :
    Option (Scores nb ns) :=
  if cfg.attention_type = ATTENTION_TYPE_ADD then
    match w with
    | Weights.additive Wt Wx bh Wa ba =>
        some (_call_additive_emission cfg.use_additive_bias cfg.use_attention_bias
          Wt Wx bh Wa ba inputs)
    | Weights.multiplicative _ _ => none
  else if cfg.attention_type = ATTENTION_TYPE_MUL then
    match w with
    | Weights.multiplicative Wa ba =>
        some (_call_multiplicative_emission cfg.use_attention_bias Wa ba inputs)
    | Weights.additive _ _ _ _ _ => none
  else none

/-- The six recognised values of the attention_distance hyperparameter. -/
inductive DistChoice where
  | linear
  | log
  | exp
  | mydistance
  | sigmoid
  | tanh
  deriving DecidableEq

/-- The chain of string comparisons on self.attention_distance in call
(lines 174 to 225); an unrecognised string leaves distance_mask unbound. -/
def parseDistance (s : String) : Option DistChoice :=
  if s = "linear" then some DistChoice.linear
  else if s = "log" then some DistChoice.log
  else if s = "exp" then some DistChoice.exp
  else if s = "mydistance" then some DistChoice.mydistance
  else if s = "sigmoid" then some DistChoice.sigmoid
  else if s = "tanh" then some DistChoice.tanh
  else none

/-- abs(sl_col - sl_row): the absolute positional distance between two
token indices. -/
def absDiff (i j : ℕ) : ℕ := Int.natAbs ((i : ℤ) - (j : ℤ))

/-- Entry (i, j) of the numpy distance_mask matrix for each recognised
attention_distance.  Every branch writes -10000 on the diagonal; off the
diagonal linear writes -abs(i-j), log writes -log(abs(i-j)), exp writes
-exp(abs(i-j)), and mydistance, sigmoid and tanh write their value only when
abs(i-j) > 1, leaving the np.zeros entry 0 at abs(i-j) = 1.  The python
matrix is the restriction of this function to indices below the hard-coded
side length 15. -/
noncomputable def distanceBias : DistChoice → ℕ → ℕ → ℝ
  | DistChoice.linear, i, j =>
      if i = j then -10000 else -(absDiff i j : ℝ)
  | DistChoice.log, i, j =>
      if i = j then -10000 else -Real.log (absDiff i j)
  | DistChoice.exp, i, j =>
      if i = j then -10000 else -Real.exp (absDiff i j)
  | DistChoice.mydistance, i, j =>
      if i = j then -10000 else if 1 < absDiff i j then -(absDiff i j : ℝ) else 0
  | DistChoice.sigmoid, i, j =>
      if i = j then -10000 else if 1 < absDiff i j then -(1 / (1 + Real.exp (absDiff i j))) else 0
  | DistChoice.tanh, i, j =>
      if i = j then -10000 else if 1 < absDiff i j then -Real.tanh (absDiff i j) else 0

/-- Value of the distance bias as a function of the distance alone. -/
noncomputable def distanceBiasAt : DistChoice → ℕ → ℝ
  | DistChoice.linear, d => if d = 0 then -10000 else -(d : ℝ)
  | DistChoice.log, d => if d = 0 then -10000 else -Real.log d
  | DistChoice.exp, d => if d = 0 then -10000 else -Real.exp d
  | DistChoice.mydistance, d => if d = 0 then -10000 else if 1 < d then -(d : ℝ) else 0
  | DistChoice.sigmoid, d =>
      if d = 0 then -10000 else if 1 < d then -(1 / (1 + Real.exp d)) else 0
  | DistChoice.tanh, d => if d = 0 then -10000 else if 1 < d then -Real.tanh d else 0

/-- Local-attention masking of call (lines 240 to 248): when attention_width
is set, lower = t - (width - 1) with history_only and t - width // 2
otherwise, and 10000 times the product of the two window indicators
subtracted from 1 is taken off every score outside the window. -/
noncomputable def applyWidthMask (width : Option ℕ) (historyOnly : Bool)
    (e : Scores nb ns) : Scores nb ns :=
  match width with
  | none => e
  | some w =>
      fun b t t2 =>
        let lower : ℤ :=
          if historyOnly then ((t : ℕ) : ℤ) - ((w : ℤ) - 1)
          else ((t : ℕ) : ℤ) - (w : ℤ) / 2
        e b t t2 -
          10000 * (1 - (if lower ≤ ((t2 : ℕ) : ℤ) then (1 : ℝ) else 0) *
            (if ((t2 : ℕ) : ℤ) < lower + (w : ℤ) then (1 : ℝ) else 0))

/-- Input-mask handling of call (lines 230 to 232 and 249 to 251): the mask
of shape [batch, sequence] is expanded over the query axis, so entry
(b, t, t2) of the tiled mask is the mask at key position t2; the scores lose
10000 times (1 - mask cast to float). -/
noncomputable def applyInputMask (e : Scores nb ns)
    (mask : Option (Fin nb → Fin ns → Bool)) : Scores nb ns :=
  match mask with
  | none => e
  | some mk =>
      fun b t t2 => e b t t2 - 10000 * (1 - (if mk b t2 then (1 : ℝ) else 0))

/-- Score pipeline of call up to the softmax: emission, activation, optional
width mask, optional input mask, and the added distance bias (line 255). -/
noncomputable def scoresPipeline (L : Layer) (c : DistChoice) (e0 : Scores nb ns)
    (mask : Option (Fin nb → Fin ns → Bool)) : Scores nb ns :=
  fun b t t2 =>
    applyInputMask
      (applyWidthMask L.attention_width L.cfg.history_only
        (fun b2 ta tb => L.cfg.attention_activation (e0 b2 ta tb)))
      mask b t t2
    + distanceBias c (t : ℕ) (t2 : ℕ)

/-- Softmax over the last axis as written in call (lines 257 to 259): the
row maximum is subtracted inside the exponential and the row of exponentials
is divided by its sum. -/
noncomputable def softmaxRow (e : Scores nb ns) : Scores nb ns :=
  fun b t t2 =>
    Real.exp (e b t t2 - ⨆ t3, e b t t3) /
      ∑ t3, Real.exp (e b t t3 - ⨆ t4, e b t t4)

/-- K.batch_dot(a, inputs) (line 262): the attention-weighted aggregation of
the input sequence. -/
noncomputable def batchDot (a : Scores nb ns) (x : Tensor3 nb ns f) : Tensor3 nb ns f :=
  fun b t d => ∑ t2, a b t t2 * x b t2 d

/-- Body of call producing the pair (v, a) of output and attention weights.
none models a raised exception: an unrecognised attention_distance (unbound
distance_mask), an unrecognised attention_type (unbound e), or a sequence
length other than the hard-coded 15 (shape error on the distance-mask
addition or on the final batch_dot). -/
noncomputable def callCore (L : Layer) (w : Weights f u) (inputs : Tensor3 nb ns f)
    (mask : Option (Fin nb → Fin ns → Bool)) : Option (Tensor3 nb ns f × Scores nb ns) :=
  match parseDistance L.cfg.attention_distance with
  | none => none
  | some c =>
      match emission L.cfg w inputs with
      | none => none
      | some e0 =>
          if ns = 15 then
            let a := softmaxRow (scoresPipeline L c e0 mask)
            some (batchDot a inputs, a)
          else none

/-- Value returned by call: the output tensor alone, or the pair of output
and attention weights when return_attention is set. -/
inductive CallResult (nb ns f : ℕ) where
  | single (v : Tensor3 nb ns f) : CallResult nb ns f
  | withAttention (v : Tensor3 nb ns f) (a : Scores nb ns) : CallResult nb ns f

/-- Model of SeqDistanceSelfAttention.call (lines 163 to 270). -/
noncomputable def call (L : Layer) (w : Weights f u) (inputs : Tensor3 nb ns f)
    (mask : Option (Fin nb → Fin ns → Bool)) : Option (CallResult nb ns f) :=
  Option.map
    (fun va =>
      if L.cfg.return_attention then CallResult.withAttention va.1 va.2
      else CallResult.single va.1)
    (callCore L w inputs mask)

/-- Model of compute_output_shape (lines 307 to 312), on shape triples. -/
def compute_output_shape (L : Layer) (input_shape : ℕ × ℕ × ℕ) : List (ℕ × ℕ × ℕ) :=
  if L.cfg.return_attention then
    [input_shape, (input_shape.1, input_shape.2.1, input_shape.2.1)]
  else
    [input_shape]

/-- Additive score exactly as the specification writes it:
e = Wa . tanh(x_t Wt + x_t2 Wx + bh) + ba, with each bias present exactly
when its use flag is set. -/
noncomputable def specAdditiveScore (useAddBias useAttBias : Bool)
    (Wt Wx : Fin f → Fin u → ℝ) (bh : Fin u → ℝ) (Wa : Fin u → ℝ) (ba : ℝ)
    (inputs : Tensor3 nb ns f) (b : Fin nb) (t t2 : Fin ns) : ℝ :=
  (∑ j, Wa j * Real.tanh ((∑ d, inputs b t d * Wt d j) + (∑ d, inputs b t2 d * Wx d j) +
      (if useAddBias then bh j else 0))) +
    (if useAttBias then ba else 0)

/-- Multiplicative score exactly as the specification writes it:
e = x_t^T Wa x_t2 + ba, with ba present exactly when use_attention_bias. -/
noncomputable def specMultiplicativeScore (useAttBias : Bool)
    (Wa : Fin f → Fin f → ℝ) (ba : ℝ) (inputs : Tensor3 nb ns f)
    (b : Fin nb) (t t2 : Fin ns) : ℝ :=
  (∑ d2, ∑ d, inputs b t d2 * Wa d2 d * inputs b t2 d) + (if useAttBias then ba else 0)

/-- Default configuration of the constructor. -/
def cfg0 : Config := {}

/-- Layer built from the default configuration. -/
def L0 : Layer := { cfg := cfg0, attention_width := none }

/-- Zero additive weight set over one feature and one unit. -/
noncomputable def w0 : Weights 1 1 :=
  Weights.additive (fun _ _ => 0) (fun _ _ => 0) (fun _ => 0) (fun _ => 0) 0

/-- Zero input of sequence length 15. -/
def x15 : Tensor3 1 15 1 := fun _ _ _ => 0

/-- Zero input of sequence length 2. -/
def x2 : Tensor3 1 2 1 := fun _ _ _ => 0

/-- Configuration with history_only set and attention_width left None. -/
def cfgH : Config := { history_only := true }

/-- Configuration selecting the multiplicative attention type. -/
def cfgMul : Config := { attention_type := "multiplicative" }

/-- Configuration with an unrecognised attention_distance value. -/
def cfgBad : Config := { attention_distance := "quadratic" }

/-- The distance bias of every recognised choice is a function of the
positional distance alone. -/
lemma distanceBias_eq_at (c : DistChoice) (i j : ℕ) :
    distanceBias c i j = distanceBiasAt c (absDiff i j) := by
  have h : (i = j) ↔ (absDiff i j = 0) := by unfold absDiff; omega
  cases c <;> simp only [distanceBias, distanceBiasAt] <;> rw [if_congr h rfl rfl]

/-- With a recognised distance choice and an emission that evaluates, callCore
at the hard-coded sequence length 15 returns the softmax weights of the score
pipeline together with their aggregation of the inputs. -/
lemma callCore_eq_some (L : Layer) (w : Weights f u) (inputs : Tensor3 nb 15 f)
    (mask : Option (Fin nb → Fin 15 → Bool)) (c : DistChoice) (e0 : Scores nb 15)
    (hc : parseDistance L.cfg.attention_distance = some c)
    (he : emission L.cfg w inputs = some e0) :
    callCore L w inputs mask =
      some (batchDot (softmaxRow (scoresPipeline L c e0 mask)) inputs,
            softmaxRow (scoresPipeline L c e0 mask)) := by
  unfold callCore
  rw [hc, he]
  rfl

/-- Every softmax entry is non-negative. -/
lemma softmaxRow_nonneg (e : Scores nb 15) (b : Fin nb) (t t2 : Fin 15) :
    0 ≤ softmaxRow e b t t2 := by
  unfold softmaxRow
  apply div_nonneg (Real.exp_pos _).le
  exact Finset.sum_nonneg fun _ _ => (Real.exp_pos _).le

/-- The softmax denominator is positive at the nonzero sequence length 15. -/
lemma softmaxRow_den_pos (e : Scores nb 15) (b : Fin nb) (t : Fin 15) :
    0 < ∑ t3, Real.exp (e b t t3 - ⨆ t4, e b t t4) :=
  Finset.sum_pos (fun _ _ => Real.exp_pos _) Finset.univ_nonempty

/-- Every softmax row sums to one. -/
lemma softmaxRow_sum_one (e : Scores nb 15) (b : Fin nb) (t : Fin 15) :
    ∑ t2, softmaxRow e b t t2 = 1 := by
  unfold softmaxRow
  rw [← Finset.sum_div]
  exact div_self (ne_of_gt (softmaxRow_den_pos e b t))

/-- Claim C1, counterexample to the claim as stated: the claim asserts that
the call succeeds for every sequence length, but with the default
configuration the call at sequence length 2 raises, because the distance
matrix is hard-coded to side length 15 and cannot be added to the 2 x 2
score tensor. -/
theorem claim_C1_counterexample : call L0 w0 x2 none = none := rfl

/-- Claim C1 (amended to sequence length 15): for every input tensor of
shape [batch, 15, features] and every optional mask, a layer whose
attention_distance is recognised and whose weights match its attention type
produces an output tensor of shape [batch, 15, features], together with
attention weights of shape [batch, 15, 15] exactly when return_attention is
set; compute_output_shape reports the same shapes. -/
theorem claim_C1_success_at_length_15 (L : Layer) (w : Weights f u)
    (inputs : Tensor3 nb 15 f) (mask : Option (Fin nb → Fin 15 → Bool))
    (hd : (parseDistance L.cfg.attention_distance).isSome = true)
    (he : (emission L.cfg w inputs).isSome = true) :
    (∃ v : Tensor3 nb 15 f, ∃ a : Scores nb 15,
        callCore L w inputs mask = some (v, a) ∧
        call L w inputs mask =
          some (if L.cfg.return_attention then CallResult.withAttention v a
                else CallResult.single v)) ∧
    compute_output_shape L (nb, 15, f) =
      (if L.cfg.return_attention then [(nb, 15, f), (nb, 15, 15)]
       else [(nb, 15, f)]) := by
  obtain ⟨c, hc⟩ := Option.isSome_iff_exists.mp hd
  obtain ⟨e0, he0⟩ := Option.isSome_iff_exists.mp he
  have h := callCore_eq_some L w inputs mask c e0 hc he0
  constructor
  · refine ⟨_, _, h, ?_⟩
    unfold call
    rw [h]
    rfl
  · rfl

/-- Claim C1 witness at the default layer, zero weights and a zero input of
sequence length 15. -/
theorem claim_C1_success_at_length_15_witness :
    (∃ v : Tensor3 1 15 1, ∃ a : Scores 1 15,
        callCore L0 w0 x15 none = some (v, a) ∧
        call L0 w0 x15 none =
          some (if L0.cfg.return_attention then CallResult.withAttention v a
                else CallResult.single v)) ∧
    compute_output_shape L0 (1, 15, 1) =
      (if L0.cfg.return_attention then [(1, 15, 1), (1, 15, 15)]
       else [(1, 15, 1)]) :=
  claim_C1_success_at_length_15 L0 w0 x15 none rfl rfl

/-- Claim C2: whenever the call computes attention weights, every weight is
non-negative and every row of weights over key positions sums to one. -/
theorem claim_C2_attention_is_probability (L : Layer) (w : Weights f u)
    (inputs : Tensor3 nb 15 f) (mask : Option (Fin nb → Fin 15 → Bool))
    (hd : (parseDistance L.cfg.attention_distance).isSome = true)
    (he : (emission L.cfg w inputs).isSome = true) :
    ∃ v : Tensor3 nb 15 f, ∃ a : Scores nb 15,
      callCore L w inputs mask = some (v, a) ∧
      (∀ b t t2, 0 ≤ a b t t2) ∧ (∀ b t, ∑ t2, a b t t2 = 1) := by
  obtain ⟨c, hc⟩ := Option.isSome_iff_exists.mp hd
  obtain ⟨e0, he0⟩ := Option.isSome_iff_exists.mp he
  exact ⟨_, _, callCore_eq_some L w inputs mask c e0 hc he0,
    fun b t t2 => softmaxRow_nonneg _ b t t2,
    fun b t => softmaxRow_sum_one _ b t⟩

/-- Claim C2 witness at the default layer, zero weights and a zero input. -/
theorem claim_C2_attention_is_probability_witness :
    ∃ v : Tensor3 1 15 1, ∃ a : Scores 1 15,
      callCore L0 w0 x15 none = some (v, a) ∧
      (∀ b t t2, 0 ≤ a b t t2) ∧ (∀ b t, ∑ t2, a b t t2 = 1) :=
  claim_C2_attention_is_probability L0 w0 x15 none rfl rfl

/-- Claim C3: whenever the call computes an output, the output equals the
attention-weighted aggregation of the input sequence,
v b t d = sum over t2 of a b t t2 * inputs b t2 d. -/
theorem claim_C3_output_is_weighted_aggregation (L : Layer) (w : Weights f u)
    (inputs : Tensor3 nb 15 f) (mask : Option (Fin nb → Fin 15 → Bool))
    (hd : (parseDistance L.cfg.attention_distance).isSome = true)
    (he : (emission L.cfg w inputs).isSome = true) :
    ∃ v : Tensor3 nb 15 f, ∃ a : Scores nb 15,
      callCore L w inputs mask = some (v, a) ∧
      ∀ b t d, v b t d = ∑ t2, a b t t2 * inputs b t2 d := by
  obtain ⟨c, hc⟩ := Option.isSome_iff_exists.mp hd
  obtain ⟨e0, he0⟩ := Option.isSome_iff_exists.mp he
  exact ⟨_, _, callCore_eq_some L w inputs mask c e0 hc he0, fun b t d => rfl⟩

/-- Claim C3 witness at the default layer, zero weights and a zero input. -/
theorem claim_C3_output_is_weighted_aggregation_witness :
    ∃ v : Tensor3 1 15 1, ∃ a : Scores 1 15,
      callCore L0 w0 x15 none = some (v, a) ∧
      ∀ b t d, v b t d = ∑ t2, a b t t2 * x15 b t2 d :=
  claim_C3_output_is_weighted_aggregation L0 w0 x15 none rfl rfl

/-- Claim C4: for every recognised distance-function choice the distance bias
depends only on the positional distance between the two tokens, and with the
linear choice the off-diagonal bias equals minus the distance, which is
non-positive. -/
theorem claim_C4_distance_bias_additive_penalty :
    (∀ (c : DistChoice) (i j i2 j2 : ℕ), absDiff i j = absDiff i2 j2 →
        distanceBias c i j = distanceBias c i2 j2) ∧
    (∀ i j : ℕ, i ≠ j →
        distanceBias DistChoice.linear i j = -(absDiff i j : ℝ) ∧
        distanceBias DistChoice.linear i j ≤ 0) := by
  constructor
  · intro c i j i2 j2 h
    rw [distanceBias_eq_at, distanceBias_eq_at, h]
  · intro i j hij
    have h : distanceBias DistChoice.linear i j = -(absDiff i j : ℝ) := by
      simp only [distanceBias, if_neg hij]
    exact ⟨h, by rw [h]; exact neg_nonpos.mpr (Nat.cast_nonneg _)⟩

/-- Claim C4 witness: two pairs at distance 3 get the same linear bias, and
the bias at the off-diagonal pair (0, 3) is minus the distance. -/
theorem claim_C4_distance_bias_additive_penalty_witness :
    distanceBias DistChoice.linear 0 3 = distanceBias DistChoice.linear 5 2 ∧
    distanceBias DistChoice.linear 0 3 = -(absDiff 0 3 : ℝ) ∧
    distanceBias DistChoice.linear 0 3 ≤ 0 :=
  ⟨claim_C4_distance_bias_additive_penalty.1 DistChoice.linear 0 3 5 2 (by decide),
   claim_C4_distance_bias_additive_penalty.2 0 3 (by decide)⟩

/-- Claim C5: the pairwise relevance scores follow exactly the two formulas
of the specification: the additive emission is Wa . tanh(x_t Wt + x_t2 Wx +
bh) + ba with each bias present exactly under its use flag, the
multiplicative emission is x_t^T Wa x_t2 + ba with ba present exactly under
use_attention_bias, and the emission dispatch selects the additive formula
for attention_type additive and the multiplicative formula for
attention_type multiplicative. -/
theorem claim_C5_two_scoring_formulas :
    (∀ (useAddBias useAttBias : Bool) (Wt Wx : Fin f → Fin u → ℝ)
        (bh : Fin u → ℝ) (Wa : Fin u → ℝ) (ba : ℝ) (inputs : Tensor3 nb ns f)
        (b : Fin nb) (t t2 : Fin ns),
        _call_additive_emission useAddBias useAttBias Wt Wx bh Wa ba inputs b t t2 =
          specAdditiveScore useAddBias useAttBias Wt Wx bh Wa ba inputs b t t2) ∧
    (∀ (useAttBias : Bool) (Wa : Fin f → Fin f → ℝ) (ba : ℝ)
        (inputs : Tensor3 nb ns f) (b : Fin nb) (t t2 : Fin ns),
        _call_multiplicative_emission useAttBias Wa ba inputs b t t2 =
          specMultiplicativeScore useAttBias Wa ba inputs b t t2) ∧
    (∀ (cfg : Config) (inputs : Tensor3 nb ns f),
        cfg.attention_type = ATTENTION_TYPE_ADD →
        ∀ (Wt Wx : Fin f → Fin u → ℝ) (bh : Fin u → ℝ) (Wa : Fin u → ℝ) (ba : ℝ),
          emission cfg (Weights.additive Wt Wx bh Wa ba) inputs =
            some (_call_additive_emission cfg.use_additive_bias
              cfg.use_attention_bias Wt Wx bh Wa ba inputs)) ∧
    (∀ (cfg : Config) (inputs : Tensor3 nb ns f),
        cfg.attention_type = ATTENTION_TYPE_MUL →
        ∀ (Wa : Fin f → Fin f → ℝ) (ba : ℝ),
          emission cfg (Weights.multiplicative Wa ba : Weights f u) inputs =
            some (_call_multiplicative_emission cfg.use_attention_bias Wa ba inputs)) := by
  refine ⟨?_, ?_, ?_, ?_⟩
  · intro useAddBias useAttBias Wt Wx bh Wa ba inputs b t t2
    have hsum : ∀ g : Fin u → ℝ, ∑ j, g j * Wa j = ∑ j, Wa j * g j :=
      fun g => Finset.sum_congr rfl fun j _ => mul_comm _ _
    cases useAddBias <;> cases useAttBias <;>
      simp [_call_additive_emission, specAdditiveScore, hsum]
  · intro useAttBias Wa ba inputs b t t2
    have hsum : (∑ d, (∑ d2, inputs b t d2 * Wa d2 d) * inputs b t2 d) =
        ∑ d2, ∑ d, inputs b t d2 * Wa d2 d * inputs b t2 d := by
      rw [Finset.sum_comm]
      exact Finset.sum_congr rfl fun d _ => Finset.sum_mul _ _ _
    cases useAttBias <;>
      simp [_call_multiplicative_emission, specMultiplicativeScore, hsum]
  · intro cfg inputs hty Wt Wx bh Wa ba
    unfold emission
    rw [hty, if_pos rfl]
  · intro cfg inputs hty Wa ba
    unfold emission
    rw [hty, if_neg (by decide), if_pos rfl]

/-- Zero square weight matrix over one feature and one unit. -/
noncomputable def zMat : Fin 1 → Fin 1 → ℝ := fun _ _ => 0

/-- Zero weight vector over one unit. -/
noncomputable def zVec : Fin 1 → ℝ := fun _ => 0

/-- Claim C5 witness: the dispatch hypotheses hold at the default additive
configuration and at the multiplicative configuration. -/
theorem claim_C5_two_scoring_formulas_witness :
    (emission cfg0 (Weights.additive zMat zMat zVec zVec 0) x15 =
      some (_call_additive_emission cfg0.use_additive_bias cfg0.use_attention_bias
        zMat zMat zVec zVec 0 x15)) ∧
    (emission cfgMul (Weights.multiplicative zMat 0 : Weights 1 1) x15 =
      some (_call_multiplicative_emission cfgMul.use_attention_bias zMat 0 x15)) :=
  ⟨claim_C5_two_scoring_formulas.2.2.1 cfg0 x15 rfl zMat zMat zVec zVec 0,
   claim_C5_two_scoring_formulas.2.2.2 cfgMul x15 rfl zMat 0⟩

/-- Claim C6: constructing the layer succeeds exactly when attention_type is
additive or multiplicative; every other value raises at construction time. -/
theorem claim_C6_constructor_validates_attention_type (cfg : Config) :
    (init cfg).isSome = true ↔
      (cfg.attention_type = ATTENTION_TYPE_ADD ∨
        cfg.attention_type = ATTENTION_TYPE_MUL) := by
  unfold init
  by_cases h : cfg.attention_type = ATTENTION_TYPE_ADD ∨
      cfg.attention_type = ATTENTION_TYPE_MUL
  · simp [h]
  · simp [h]

/-- Claim C7: with a mask supplied, a score at a key position whose mask
entry is 0 loses exactly 10000 and a score at a key position whose mask
entry is 1 is unchanged. -/
theorem claim_C7_mask_penalty (e : Scores nb ns) (mk : Fin nb → Fin ns → Bool)
    (b : Fin nb) (t t2 : Fin ns) :
    applyInputMask e (some mk) b t t2 =
      e b t t2 - (if mk b t2 then 0 else 10000) := by
  unfold applyInputMask
  cases h : mk b t2 <;> simp [h]

/-- Claim C8: with attention_width w set, a score loses exactly 10000 when
the key position lies outside the local window, which with history_only is
the interval from t - w + 1 to t and otherwise the half-open interval from
t - w / 2 of width w; and a constructor call with history_only and
attention_width None stores 10 ^ 9 as the width. -/
theorem claim_C8_attention_width_window :
    (∀ (nb ns : ℕ) (w : ℕ) (historyOnly : Bool) (e : Scores nb ns)
        (b : Fin nb) (t t2 : Fin ns),
        applyWidthMask (some w) historyOnly e b t t2 =
          e b t t2 -
            (if (if historyOnly then
                  ((t : ℕ) : ℤ) - (w : ℤ) + 1 ≤ ((t2 : ℕ) : ℤ) ∧
                    ((t2 : ℕ) : ℤ) ≤ ((t : ℕ) : ℤ)
                 else
                  ((t : ℕ) : ℤ) - (w : ℤ) / 2 ≤ ((t2 : ℕ) : ℤ) ∧
                    ((t2 : ℕ) : ℤ) < ((t : ℕ) : ℤ) - (w : ℤ) / 2 + (w : ℤ))
             then 0 else 10000)) ∧
    (∀ cfg : Config, cfg.history_only = true → cfg.attention_width = none →
        cfg.attention_type = ATTENTION_TYPE_ADD ∨
          cfg.attention_type = ATTENTION_TYPE_MUL →
        ∃ L : Layer, init cfg = some L ∧ L.attention_width = some (10 ^ 9)) := by
  constructor
  · intro nb ns w historyOnly e b t t2
    cases historyOnly
    · simp only [applyWidthMask, Bool.false_eq_true, if_false]
      by_cases hA : ((t : ℕ) : ℤ) - (w : ℤ) / 2 ≤ ((t2 : ℕ) : ℤ) <;>
        by_cases hB : ((t2 : ℕ) : ℤ) < ((t : ℕ) : ℤ) - (w : ℤ) / 2 + (w : ℤ) <;>
          simp [hA, hB]
    · simp only [applyWidthMask, if_true]
      have h1 : (((t : ℕ) : ℤ) - ((w : ℤ) - 1) ≤ ((t2 : ℕ) : ℤ)) ↔
          (((t : ℕ) : ℤ) - (w : ℤ) + 1 ≤ ((t2 : ℕ) : ℤ)) := by omega
      have h2 : (((t2 : ℕ) : ℤ) < ((t : ℕ) : ℤ) - ((w : ℤ) - 1) + (w : ℤ)) ↔
          (((t2 : ℕ) : ℤ) ≤ ((t : ℕ) : ℤ)) := by omega
      simp only [h1, h2]
      by_cases hA : ((t : ℕ) : ℤ) - (w : ℤ) + 1 ≤ ((t2 : ℕ) : ℤ) <;>
        by_cases hB : ((t2 : ℕ) : ℤ) ≤ ((t : ℕ) : ℤ) <;>
          simp [hA, hB]
  · intro cfg h1 h2 hty
    refine ⟨{ cfg := cfg, attention_width := some 1000000000 }, ?_, by norm_num⟩
    unfold init
    rw [if_pos hty]
    simp [h1, h2]

/-- Claim C8 witness: the constructor stores 10 ^ 9 for the configuration
with history_only set and no attention_width. -/
theorem claim_C8_attention_width_window_witness :
    ∃ L : Layer, init cfgH = some L ∧ L.attention_width = some (10 ^ 9) :=
  claim_C8_attention_width_window.2 cfgH rfl rfl (Or.inl rfl)

/-- Claim C9: every recognised distance choice writes -10000 on the whole
diagonal of the distance-bias matrix. -/
theorem claim_C9_diagonal_minus_10000 (c : DistChoice) (i : ℕ) :
    distanceBias c i i = -10000 := by
  cases c <;> simp [distanceBias]

/-- Claim C10: the constructor does not validate attention_distance: with a
valid attention_type the construction succeeds for every attention_distance
string, and when that string is unrecognised every later call raises before
producing any output. -/
theorem claim_C10_distance_not_validated (cfg : Config)
    (hty : cfg.attention_type = ATTENTION_TYPE_ADD ∨
      cfg.attention_type = ATTENTION_TYPE_MUL)
    (hdist : parseDistance cfg.attention_distance = none) :
    ∃ L : Layer, init cfg = some L ∧
      ∀ {nb ns f u : ℕ} (w : Weights f u) (inputs : Tensor3 nb ns f)
        (mask : Option (Fin nb → Fin ns → Bool)), call L w inputs mask = none := by
  refine ⟨{ cfg := cfg,
            attention_width :=
              if cfg.history_only ∧ cfg.attention_width = none then some 1000000000
              else cfg.attention_width }, ?_, ?_⟩
  · unfold init
    rw [if_pos hty]
  · intro nb ns f u w inputs mask
    simp [call, callCore, hdist]

/-- Claim C10 witness: the configuration with attention_distance set to the
unrecognised string quadratic constructs successfully and every call on the
resulting layer raises. -/
theorem claim_C10_distance_not_validated_witness :
    ∃ L : Layer, init cfgBad = some L ∧
      ∀ {nb ns f u : ℕ} (w : Weights f u) (inputs : Tensor3 nb ns f)
        (mask : Option (Fin nb → Fin ns → Bool)), call L w inputs mask = none :=
  claim_C10_distance_not_validated cfgBad (Or.inl rfl) rfl

end EDSSM
